import Mathlib

/-!
Verification of the token-emission simulator (app.py and app2.py).

The development shallowly embeds the numeric core of the two Streamlit
scripts: the TVL trajectory generators, the hard-cap schedule of the
extended variant, and the day-by-day emission recurrence of both
variants.  Floating-point arithmetic is modelled by real arithmetic;
the one place where IEEE semantics visibly diverges from the reals
(the 0/0 = NaN case of the logarithmic cap formula at growth rate 0)
is modelled explicitly with an Option-valued variant in which `none`
stands for NaN.
-/

namespace CsMinting

/-- Sidebar parameters of app.py that the emission core reads:
hard cap, max tokens per day, and the alpha damping coefficient. -/
structure Config1 where
  cap : ℝ
  delta_max : ℝ
  alpha : ℝ

/-- Sidebar parameters of app2.py that the emission core reads:
initial hard cap, the cap-growth switch, cap growth rate, maximum hard
cap, max tokens per day, alpha, and the simulated horizon in days
(days = 365 * years in the script). -/
structure Config2 where
  initial_cap : ℝ
  cap_growth_enabled : Bool
  cap_growth_rate : ℝ
  max_cap : ℝ
  delta_max : ℝ
  alpha : ℝ
  days : ℕ

/-- Linear TVL trajectory of both scripts:
increasing_tvl(t) = start * (1 + growth_rate * t). -/
noncomputable def increasing_tvl (start growth_rate : ℝ) (t : ℝ) : ℝ :=
  start * (1 + growth_rate * t)

/-- Sinusoidal TVL trajectory of both scripts:
trend start * (1 + growth_rate * t) plus amplitude * sin(2 pi t / period). -/
noncomputable def sinusoidal_increasing_tvl (start growth_rate amplitude period : ℝ)
    (t : ℝ) : ℝ :=
  start * (1 + growth_rate * t) + amplitude * Real.sin (2 * Real.pi * t / period)

/-- Exponential TVL trajectory of both scripts:
exponential_tvl(t) = start * exp(growth_rate * t). -/
noncomputable def exponential_tvl (start growth_rate : ℝ) (t : ℝ) : ℝ :=
  start * Real.exp (growth_rate * t)

/-- Logistic S-curve TVL trajectory of both scripts:
s_curve_tvl(t) = start + (max_tvl - start) / (1 + exp(-steepness * (t - midpoint))). -/
noncomputable def s_curve_tvl (start max_tvl midpoint steepness : ℝ) (t : ℝ) : ℝ :=
  start + (max_tvl - start) / (1 + Real.exp (-steepness * (t - midpoint)))

namespace App1

/-- The running cumulative-mint state of calculate_emissions in app.py.
minted_so_far[0] = 0 and minted_so_far[t+1] = minted_so_far[t] + e_actual
where e_actual = min(delta_max * g_cap * f_tvl, cap - minted_so_far[t]),
g_cap = 1 - minted_so_far[t] / cap and f_tvl = 1 / (1 + alpha * tvl[t]).
The script only writes index t+1 while t+1 < days, so on the index range
[0, days) this recurrence reproduces the array exactly. -/
noncomputable def minted_so_far (c : Config1) (tvl_values : ℕ → ℝ) : ℕ → ℝ
  | 0 => 0
  | t + 1 =>
    let m := minted_so_far c tvl_values t
    let g_cap := 1 - m / c.cap
    let f_tvl := 1 / (1 + c.alpha * tvl_values t)
    let e_t := c.delta_max * g_cap * f_tvl
    m + min e_t (c.cap - m)

/-- The per-day emission written by calculate_emissions in app.py:
emissions[t] = min(delta_max * g_cap * f_tvl, cap - minted_so_far[t]),
with no floor at zero. -/
noncomputable def emissions (c : Config1) (tvl_values : ℕ → ℝ) (t : ℕ) : ℝ :=
  let m := minted_so_far c tvl_values t
  let g_cap := 1 - m / c.cap
  let f_tvl := 1 / (1 + c.alpha * tvl_values t)
  let e_t := c.delta_max * g_cap * f_tvl
  min e_t (c.cap - m)

/-- The triple returned by calculate_emissions in app.py:
(tvl_values, emissions, minted_so_far), each a day-indexed sequence. -/
noncomputable def calculate_emissions (c : Config1) (tvl_trajectory : ℕ → ℝ) :
    (ℕ → ℝ) × (ℕ → ℝ) × (ℕ → ℝ) :=
  (fun t => tvl_trajectory t, emissions c tvl_trajectory, minted_so_far c tvl_trajectory)

theorem minted_succ (c : Config1) (tvl : ℕ → ℝ) (t : ℕ) :
    minted_so_far c tvl (t + 1) =
      minted_so_far c tvl t +
        min (c.delta_max * (1 - minted_so_far c tvl t / c.cap) *
              (1 / (1 + c.alpha * tvl t)))
          (c.cap - minted_so_far c tvl t) := rfl

theorem emissions_def (c : Config1) (tvl : ℕ → ℝ) (t : ℕ) :
    emissions c tvl t =
      min (c.delta_max * (1 - minted_so_far c tvl t / c.cap) *
            (1 / (1 + c.alpha * tvl t)))
        (c.cap - minted_so_far c tvl t) := rfl

theorem minted_succ_eq_add_emissions (c : Config1) (tvl : ℕ → ℝ) (t : ℕ) :
    minted_so_far c tvl (t + 1) = minted_so_far c tvl t + emissions c tvl t := rfl

/-- The clamp bounds the next cumulative mint by the cap. -/
theorem minted_le_cap (c : Config1) (tvl : ℕ → ℝ) (hcap : 0 < c.cap) :
    ∀ t, minted_so_far c tvl t ≤ c.cap := by
  intro t
  cases t with
  | zero => exact le_of_lt hcap
  | succ t =>
    rw [minted_succ]
    have h := min_le_right
      (c.delta_max * (1 - minted_so_far c tvl t / c.cap) * (1 / (1 + c.alpha * tvl t)))
      (c.cap - minted_so_far c tvl t)
    linarith

/-- On every day, the clamp keeps the running mint plus the day's emission
below the cap, unconditionally. -/
theorem minted_add_emission_le_cap (c : Config1) (tvl : ℕ → ℝ) (t : ℕ) :
    minted_so_far c tvl t + emissions c tvl t ≤ c.cap := by
  rw [emissions_def]
  have := min_le_right
    (c.delta_max * (1 - minted_so_far c tvl t / c.cap) * (1 / (1 + c.alpha * tvl t)))
    (c.cap - minted_so_far c tvl t)
  linarith

/-- With a positive cap, nonnegative delta_max, positive alpha and a
nonnegative TVL trajectory, the cumulative mint never goes negative. -/
theorem minted_nonneg (c : Config1) (tvl : ℕ → ℝ)
    (hcap : 0 < c.cap) (hdm : 0 ≤ c.delta_max) (halpha : 0 < c.alpha)
    (htvl : ∀ t, 0 ≤ tvl t) :
    ∀ t, 0 ≤ minted_so_far c tvl t := by
  intro t
  induction t with
  | zero => exact le_rfl
  | succ t ih =>
    rw [minted_succ]
    have hle : minted_so_far c tvl t ≤ c.cap := minted_le_cap c tvl hcap t
    have hg : 0 ≤ 1 - minted_so_far c tvl t / c.cap := by
      have : minted_so_far c tvl t / c.cap ≤ 1 := (div_le_one hcap).2 hle
      linarith
    have hf : 0 ≤ 1 / (1 + c.alpha * tvl t) := by
      have h1 : 0 ≤ c.alpha * tvl t := mul_nonneg halpha.le (htvl t)
      have h2 : 0 < 1 + c.alpha * tvl t := by linarith
      positivity
    have he : 0 ≤ c.delta_max * (1 - minted_so_far c tvl t / c.cap) *
        (1 / (1 + c.alpha * tvl t)) :=
      mul_nonneg (mul_nonneg hdm hg) hf
    have hmin := le_min he (by linarith :
      (0 : ℝ) ≤ c.cap - minted_so_far c tvl t)
    linarith

/-- With a positive cap, nonnegative delta_max, positive alpha and a
nonnegative TVL trajectory, every emission is nonnegative. -/
theorem emissions_nonneg (c : Config1) (tvl : ℕ → ℝ)
    (hcap : 0 < c.cap) (hdm : 0 ≤ c.delta_max) (halpha : 0 < c.alpha)
    (htvl : ∀ t, 0 ≤ tvl t) (t : ℕ) :
    0 ≤ emissions c tvl t := by
  rw [emissions_def]
  have hle : minted_so_far c tvl t ≤ c.cap := minted_le_cap c tvl hcap t
  have hg : 0 ≤ 1 - minted_so_far c tvl t / c.cap := by
    have : minted_so_far c tvl t / c.cap ≤ 1 := (div_le_one hcap).2 hle
    linarith
  have hf : 0 ≤ 1 / (1 + c.alpha * tvl t) := by
    have h1 : 0 ≤ c.alpha * tvl t := mul_nonneg halpha.le (htvl t)
    have h2 : 0 < 1 + c.alpha * tvl t := by linarith
    positivity
  exact le_min (mul_nonneg (mul_nonneg hdm hg) hf) (by linarith)

/-- With a positive cap, nonnegative delta_max, positive alpha and a
nonnegative TVL trajectory, no day mints more than delta_max: the
cap-remaining factor and the TVL damping factor both sit in [0, 1]. -/
theorem emissions_le_delta_max (c : Config1) (tvl : ℕ → ℝ)
    (hcap : 0 < c.cap) (hdm : 0 ≤ c.delta_max) (halpha : 0 < c.alpha)
    (htvl : ∀ t, 0 ≤ tvl t) (t : ℕ) :
    emissions c tvl t ≤ c.delta_max := by
  rw [emissions_def]
  have hm0 : 0 ≤ minted_so_far c tvl t := minted_nonneg c tvl hcap hdm halpha htvl t
  have hle : minted_so_far c tvl t ≤ c.cap := minted_le_cap c tvl hcap t
  have hg0 : 0 ≤ 1 - minted_so_far c tvl t / c.cap := by
    have : minted_so_far c tvl t / c.cap ≤ 1 := (div_le_one hcap).2 hle
    linarith
  have hg1 : 1 - minted_so_far c tvl t / c.cap ≤ 1 := by
    have : 0 ≤ minted_so_far c tvl t / c.cap := div_nonneg hm0 hcap.le
    linarith
  have hfpos : 0 < 1 + c.alpha * tvl t := by
    have : 0 ≤ c.alpha * tvl t := mul_nonneg halpha.le (htvl t)
    linarith
  have hf0 : 0 ≤ 1 / (1 + c.alpha * tvl t) := by positivity
  have hf1 : 1 / (1 + c.alpha * tvl t) ≤ 1 := by
    rw [div_le_one hfpos]
    have : 0 ≤ c.alpha * tvl t := mul_nonneg halpha.le (htvl t)
    linarith
  have hgf : (1 - minted_so_far c tvl t / c.cap) * (1 / (1 + c.alpha * tvl t)) ≤ 1 :=
    mul_le_one₀ hg1 hf0 hf1
  have het : c.delta_max * (1 - minted_so_far c tvl t / c.cap) *
      (1 / (1 + c.alpha * tvl t)) ≤ c.delta_max := by
    rw [mul_assoc]
    calc c.delta_max * ((1 - minted_so_far c tvl t / c.cap) *
          (1 / (1 + c.alpha * tvl t)))
        ≤ c.delta_max * 1 := mul_le_mul_of_nonneg_left hgf hdm
      _ = c.delta_max := mul_one _
  exact le_trans (min_le_left _ _) het

end App1

namespace App2

/-- The hard-cap schedule of app2.py, calculate_hard_cap, read over the
reals: if growth is disabled the cap is constantly initial_cap, otherwise
cap(t) = initial_cap + (max_cap - initial_cap) * log(1 + rate*t) / log(1 + rate*days).
There is no special case for rate = 0 in the source; over the reals Lean's
division-by-zero convention silently makes the quotient 0 there, so the
IEEE 0/0 = NaN behaviour of the script is modelled separately by
calculate_hard_cap_ieee below. -/
noncomputable def calculate_hard_cap (c : Config2) (t : ℝ) : ℝ :=
  if c.cap_growth_enabled = false then c.initial_cap
  else
    c.initial_cap + (c.max_cap - c.initial_cap) *
      Real.log (1 + c.cap_growth_rate * t) /
        Real.log (1 + c.cap_growth_rate * (c.days : ℝ))

open Classical in
/-- The hard-cap schedule of app2.py with IEEE float semantics made
explicit at the one point where it departs from real arithmetic: when the
normalisation denominator log(1 + rate*days) evaluates to 0 (which happens
exactly in the rate = 0 case the spec asks to special-case, since the
numerator log(1 + rate*t) is then 0 as well), NumPy computes 0/0 = NaN and
the schedule is NaN on every day; none models that NaN. On every input
where the denominator is nonzero this agrees with calculate_hard_cap. -/
noncomputable def calculate_hard_cap_ieee (c : Config2) (t : ℝ) : Option ℝ :=
  if c.cap_growth_enabled = false then some c.initial_cap
  else if Real.log (1 + c.cap_growth_rate * (c.days : ℝ)) = 0 then none
  else
    some (c.initial_cap + (c.max_cap - c.initial_cap) *
      Real.log (1 + c.cap_growth_rate * t) /
        Real.log (1 + c.cap_growth_rate * (c.days : ℝ)))

/-- The cap_values array of app2.py calculate_emissions:
cap_values = calculate_hard_cap(epochs), where epochs[t] = t. -/
noncomputable def cap_values (c : Config2) (t : ℕ) : ℝ :=
  calculate_hard_cap c (t : ℝ)

/-- The running cumulative-mint state of calculate_emissions in app2.py:
identical to the app.py recurrence except that the constant cap is
replaced day by day with current_cap = cap_values[t]. -/
noncomputable def minted_so_far (c : Config2) (tvl_values : ℕ → ℝ) : ℕ → ℝ
  | 0 => 0
  | t + 1 =>
    let m := minted_so_far c tvl_values t
    let current_cap := cap_values c t
    let g_cap := 1 - m / current_cap
    let f_tvl := 1 / (1 + c.alpha * tvl_values t)
    let e_t := c.delta_max * g_cap * f_tvl
    m + min e_t (current_cap - m)

/-- The per-day emission written by calculate_emissions in app2.py:
emissions[t] = min(delta_max * g_cap * f_tvl, current_cap - minted_so_far[t]),
again with no floor at zero. -/
noncomputable def emissions (c : Config2) (tvl_values : ℕ → ℝ) (t : ℕ) : ℝ :=
  let m := minted_so_far c tvl_values t
  let current_cap := cap_values c t
  let g_cap := 1 - m / current_cap
  let f_tvl := 1 / (1 + c.alpha * tvl_values t)
  let e_t := c.delta_max * g_cap * f_tvl
  min e_t (current_cap - m)

/-- The quadruple returned by calculate_emissions in app2.py:
(tvl_values, emissions, minted_so_far, cap_values). -/
noncomputable def calculate_emissions (c : Config2) (tvl_trajectory : ℕ → ℝ) :
    (ℕ → ℝ) × (ℕ → ℝ) × (ℕ → ℝ) × (ℕ → ℝ) :=
  (fun t => tvl_trajectory t, emissions c tvl_trajectory,
    minted_so_far c tvl_trajectory, cap_values c)

theorem minted_succ2 (c : Config2) (tvl : ℕ → ℝ) (t : ℕ) :
    minted_so_far c tvl (t + 1) =
      minted_so_far c tvl t +
        min (c.delta_max * (1 - minted_so_far c tvl t / cap_values c t) *
              (1 / (1 + c.alpha * tvl t)))
          (cap_values c t - minted_so_far c tvl t) := rfl

theorem emissions_def2 (c : Config2) (tvl : ℕ → ℝ) (t : ℕ) :
    emissions c tvl t =
      min (c.delta_max * (1 - minted_so_far c tvl t / cap_values c t) *
            (1 / (1 + c.alpha * tvl t)))
        (cap_values c t - minted_so_far c tvl t) := rfl

theorem minted_succ_eq_add_emissions2 (c : Config2) (tvl : ℕ → ℝ) (t : ℕ) :
    minted_so_far c tvl (t + 1) = minted_so_far c tvl t + emissions c tvl t := rfl

/-- On day 0 the schedule is exactly initial_cap: log(1 + rate*0) = log 1 = 0
kills the growth term whatever the denominator is. -/
theorem cap_values_zero (c : Config2) : cap_values c 0 = c.initial_cap := by
  unfold cap_values calculate_hard_cap
  split
  · rfl
  · simp [Real.log_one]

/-- The growth term of the schedule is nonnegative for a valid growing
configuration, so the schedule never dips below initial_cap. -/
theorem initial_le_cap_values (c : Config2)
    (hvalid : c.cap_growth_enabled = true →
      0 < c.cap_growth_rate ∧ c.initial_cap ≤ c.max_cap) :
    ∀ t : ℕ, c.initial_cap ≤ cap_values c t := by
  intro t
  unfold cap_values calculate_hard_cap
  split
  · exact le_rfl
  · rename_i h
    have hb : c.cap_growth_enabled = true := by
      cases hcb : c.cap_growth_enabled
      · exact absurd hcb h
      · rfl
    obtain ⟨hr, hm⟩ := hvalid hb
    have hnum : 0 ≤ Real.log (1 + c.cap_growth_rate * (t : ℝ)) := by
      apply Real.log_nonneg
      have : 0 ≤ c.cap_growth_rate * (t : ℝ) := by positivity
      linarith
    have hden : 0 ≤ Real.log (1 + c.cap_growth_rate * (c.days : ℝ)) := by
      apply Real.log_nonneg
      have : 0 ≤ c.cap_growth_rate * (c.days : ℝ) := by positivity
      linarith
    have : 0 ≤ (c.max_cap - c.initial_cap) *
        Real.log (1 + c.cap_growth_rate * (t : ℝ)) /
          Real.log (1 + c.cap_growth_rate * (c.days : ℝ)) :=
      div_nonneg (mul_nonneg (by linarith) hnum) hden
    linarith

/-- For a valid configuration (positive growth rate and max_cap at least
initial_cap whenever growth is enabled) the schedule is non-decreasing. -/
theorem cap_values_mono (c : Config2)
    (hvalid : c.cap_growth_enabled = true →
      0 < c.cap_growth_rate ∧ c.initial_cap ≤ c.max_cap) :
    ∀ t : ℕ, cap_values c t ≤ cap_values c (t + 1) := by
  intro t
  unfold cap_values calculate_hard_cap
  split
  · exact le_rfl
  · rename_i h
    have hb : c.cap_growth_enabled = true := by
      cases hcb : c.cap_growth_enabled
      · exact absurd hcb h
      · rfl
    obtain ⟨hr, hm⟩ := hvalid hb
    by_cases hD : Real.log (1 + c.cap_growth_rate * (c.days : ℝ)) = 0
    · rw [hD, div_zero, div_zero]
    · have hden0 : 0 ≤ Real.log (1 + c.cap_growth_rate * (c.days : ℝ)) := by
        apply Real.log_nonneg
        have : 0 ≤ c.cap_growth_rate * (c.days : ℝ) := by positivity
        linarith
      have hden : 0 < Real.log (1 + c.cap_growth_rate * (c.days : ℝ)) :=
        lt_of_le_of_ne hden0 (Ne.symm hD)
      have hx : (0 : ℝ) < 1 + c.cap_growth_rate * (t : ℝ) := by
        have : 0 ≤ c.cap_growth_rate * (t : ℝ) := by positivity
        linarith
      have hstep : 1 + c.cap_growth_rate * (t : ℝ) ≤
          1 + c.cap_growth_rate * ((t : ℝ) + 1) := by nlinarith
      have hlog : Real.log (1 + c.cap_growth_rate * (t : ℝ)) ≤
          Real.log (1 + c.cap_growth_rate * ((t : ℝ) + 1)) :=
        Real.log_le_log hx hstep
      have hcast : ((t + 1 : ℕ) : ℝ) = (t : ℝ) + 1 := by push_cast; ring
      rw [hcast]
      have hmul : (c.max_cap - c.initial_cap) *
            Real.log (1 + c.cap_growth_rate * (t : ℝ)) ≤
          (c.max_cap - c.initial_cap) *
            Real.log (1 + c.cap_growth_rate * ((t : ℝ) + 1)) :=
        mul_le_mul_of_nonneg_left hlog (by linarith)
      have := div_le_div_of_nonneg_right hmul hden.le
      linarith

/-- On every day, the clamp in the app2.py loop keeps the running mint plus
the day's emission below that day's cap, unconditionally. -/
theorem minted_add_emission_le_cap2 (c : Config2) (tvl : ℕ → ℝ) (t : ℕ) :
    minted_so_far c tvl t + emissions c tvl t ≤ cap_values c t := by
  rw [emissions_def2]
  have := min_le_right
    (c.delta_max * (1 - minted_so_far c tvl t / cap_values c t) *
      (1 / (1 + c.alpha * tvl t)))
    (cap_values c t - minted_so_far c tvl t)
  linarith

/-- The cumulative mint never exceeds the current day's cap for a valid
configuration with a positive initial cap. -/
theorem minted_le_cap2 (c : Config2) (tvl : ℕ → ℝ)
    (hinit : 0 < c.initial_cap)
    (hvalid : c.cap_growth_enabled = true →
      0 < c.cap_growth_rate ∧ c.initial_cap ≤ c.max_cap) :
    ∀ t, minted_so_far c tvl t ≤ cap_values c t := by
  intro t
  cases t with
  | zero =>
    show (0 : ℝ) ≤ cap_values c 0
    rw [cap_values_zero]
    exact hinit.le
  | succ t =>
    have h1 : minted_so_far c tvl (t + 1) ≤ cap_values c t := by
      rw [minted_succ_eq_add_emissions2]
      exact minted_add_emission_le_cap2 c tvl t
    exact h1.trans (cap_values_mono c hvalid t)

/-- A valid configuration with positive initial cap gives a positive cap
on every day. -/
theorem cap_values_pos (c : Config2)
    (hinit : 0 < c.initial_cap)
    (hvalid : c.cap_growth_enabled = true →
      0 < c.cap_growth_rate ∧ c.initial_cap ≤ c.max_cap) :
    ∀ t : ℕ, 0 < cap_values c t :=
  fun t => lt_of_lt_of_le hinit (initial_le_cap_values c hvalid t)

/-- With a valid configuration, positive initial cap, nonnegative
delta_max, positive alpha and a nonnegative TVL trajectory, the cumulative
mint of the app2.py loop never goes negative. -/
theorem minted_nonneg2 (c : Config2) (tvl : ℕ → ℝ)
    (hinit : 0 < c.initial_cap)
    (hvalid : c.cap_growth_enabled = true →
      0 < c.cap_growth_rate ∧ c.initial_cap ≤ c.max_cap)
    (hdm : 0 ≤ c.delta_max) (halpha : 0 < c.alpha)
    (htvl : ∀ t, 0 ≤ tvl t) :
    ∀ t, 0 ≤ minted_so_far c tvl t := by
  intro t
  induction t with
  | zero => exact le_rfl
  | succ t ih =>
    rw [minted_succ2]
    have hcap : 0 < cap_values c t := cap_values_pos c hinit hvalid t
    have hle : minted_so_far c tvl t ≤ cap_values c t :=
      minted_le_cap2 c tvl hinit hvalid t
    have hg : 0 ≤ 1 - minted_so_far c tvl t / cap_values c t := by
      have : minted_so_far c tvl t / cap_values c t ≤ 1 := (div_le_one hcap).2 hle
      linarith
    have hf : 0 ≤ 1 / (1 + c.alpha * tvl t) := by
      have h1 : 0 ≤ c.alpha * tvl t := mul_nonneg halpha.le (htvl t)
      have h2 : 0 < 1 + c.alpha * tvl t := by linarith
      positivity
    have he : 0 ≤ c.delta_max * (1 - minted_so_far c tvl t / cap_values c t) *
        (1 / (1 + c.alpha * tvl t)) :=
      mul_nonneg (mul_nonneg hdm hg) hf
    have hmin := le_min he (by linarith :
      (0 : ℝ) ≤ cap_values c t - minted_so_far c tvl t)
    linarith

/-- With a valid configuration, positive initial cap, nonnegative
delta_max, positive alpha and a nonnegative TVL trajectory, no day of the
app2.py loop mints more than delta_max. -/
theorem emissions_le_delta_max2 (c : Config2) (tvl : ℕ → ℝ)
    (hinit : 0 < c.initial_cap)
    (hvalid : c.cap_growth_enabled = true →
      0 < c.cap_growth_rate ∧ c.initial_cap ≤ c.max_cap)
    (hdm : 0 ≤ c.delta_max) (halpha : 0 < c.alpha)
    (htvl : ∀ t, 0 ≤ tvl t) (t : ℕ) :
    emissions c tvl t ≤ c.delta_max := by
  rw [emissions_def2]
  have hcap : 0 < cap_values c t := cap_values_pos c hinit hvalid t
  have hm0 : 0 ≤ minted_so_far c tvl t :=
    minted_nonneg2 c tvl hinit hvalid hdm halpha htvl t
  have hle : minted_so_far c tvl t ≤ cap_values c t :=
    minted_le_cap2 c tvl hinit hvalid t
  have hg0 : 0 ≤ 1 - minted_so_far c tvl t / cap_values c t := by
    have : minted_so_far c tvl t / cap_values c t ≤ 1 := (div_le_one hcap).2 hle
    linarith
  have hg1 : 1 - minted_so_far c tvl t / cap_values c t ≤ 1 := by
    have : 0 ≤ minted_so_far c tvl t / cap_values c t := div_nonneg hm0 hcap.le
    linarith
  have hfpos : 0 < 1 + c.alpha * tvl t := by
    have : 0 ≤ c.alpha * tvl t := mul_nonneg halpha.le (htvl t)
    linarith
  have hf0 : 0 ≤ 1 / (1 + c.alpha * tvl t) := by positivity
  have hf1 : 1 / (1 + c.alpha * tvl t) ≤ 1 := by
    rw [div_le_one hfpos]
    have : 0 ≤ c.alpha * tvl t := mul_nonneg halpha.le (htvl t)
    linarith
  have hgf : (1 - minted_so_far c tvl t / cap_values c t) *
      (1 / (1 + c.alpha * tvl t)) ≤ 1 :=
    mul_le_one₀ hg1 hf0 hf1
  have het : c.delta_max * (1 - minted_so_far c tvl t / cap_values c t) *
      (1 / (1 + c.alpha * tvl t)) ≤ c.delta_max := by
    rw [mul_assoc]
    calc c.delta_max * ((1 - minted_so_far c tvl t / cap_values c t) *
          (1 / (1 + c.alpha * tvl t)))
        ≤ c.delta_max * 1 := mul_le_mul_of_nonneg_left hgf hdm
      _ = c.delta_max := mul_one _
  exact le_trans (min_le_left _ _) het

/-- With growth disabled the schedule is constantly initial_cap. -/
theorem cap_values_const (c : Config2) (hen : c.cap_growth_enabled = false)
    (t : ℕ) : cap_values c t = c.initial_cap := by
  unfold cap_values calculate_hard_cap
  rw [if_pos hen]

/-- In growing mode with positive rate and max_cap at least initial_cap,
the schedule stays at or below max_cap on [0, days), strictly below it
when max_cap strictly exceeds initial_cap. -/
theorem cap_values_le_max (c : Config2) (hen : c.cap_growth_enabled = true)
    (hr : 0 < c.cap_growth_rate) (hm : c.initial_cap ≤ c.max_cap)
    (t : ℕ) (ht : t < c.days) :
    cap_values c t ≤ c.max_cap ∧
      (c.initial_cap < c.max_cap → cap_values c t < c.max_cap) := by
  unfold cap_values calculate_hard_cap
  rw [if_neg (by simp [hen])]
  have hdays : 0 < c.days := lt_of_le_of_lt (Nat.zero_le t) ht
  have hdaysR : (0 : ℝ) < (c.days : ℝ) := by exact_mod_cast hdays
  have htR : (t : ℝ) < (c.days : ℝ) := by exact_mod_cast ht
  have hxpos : (0 : ℝ) < 1 + c.cap_growth_rate * (t : ℝ) := by
    have : 0 ≤ c.cap_growth_rate * (t : ℝ) := by positivity
    linarith
  have hlt : 1 + c.cap_growth_rate * (t : ℝ) <
      1 + c.cap_growth_rate * (c.days : ℝ) := by nlinarith
  have hDpos : 0 < Real.log (1 + c.cap_growth_rate * (c.days : ℝ)) := by
    apply Real.log_pos
    nlinarith
  have hLD : Real.log (1 + c.cap_growth_rate * (t : ℝ)) <
      Real.log (1 + c.cap_growth_rate * (c.days : ℝ)) :=
    Real.log_lt_log hxpos hlt
  have hL0 : 0 ≤ Real.log (1 + c.cap_growth_rate * (t : ℝ)) := by
    apply Real.log_nonneg
    have : 0 ≤ c.cap_growth_rate * (t : ℝ) := by positivity
    linarith
  have hq1 : Real.log (1 + c.cap_growth_rate * (t : ℝ)) /
      Real.log (1 + c.cap_growth_rate * (c.days : ℝ)) < 1 :=
    (div_lt_one hDpos).2 hLD
  have hq0 : 0 ≤ Real.log (1 + c.cap_growth_rate * (t : ℝ)) /
      Real.log (1 + c.cap_growth_rate * (c.days : ℝ)) :=
    div_nonneg hL0 hDpos.le
  rw [mul_div_assoc]
  constructor
  · have : (c.max_cap - c.initial_cap) *
        (Real.log (1 + c.cap_growth_rate * (t : ℝ)) /
          Real.log (1 + c.cap_growth_rate * (c.days : ℝ))) ≤
        (c.max_cap - c.initial_cap) * 1 :=
      mul_le_mul_of_nonneg_left hq1.le (by linarith)
    linarith
  · intro hstrict
    have : (c.max_cap - c.initial_cap) *
        (Real.log (1 + c.cap_growth_rate * (t : ℝ)) /
          Real.log (1 + c.cap_growth_rate * (c.days : ℝ))) <
        (c.max_cap - c.initial_cap) * 1 :=
      mul_lt_mul_of_pos_left hq1 (by linarith)
    linarith

end App2

/-- With growth disabled in app2.py and matching parameters, the two
cumulative-mint recurrences coincide day by day. -/
theorem minted_agree (c2 : Config2) (c1 : Config1) (tvl : ℕ → ℝ)
    (hen : c2.cap_growth_enabled = false)
    (hcap : c2.initial_cap = c1.cap)
    (hdm : c2.delta_max = c1.delta_max)
    (halpha : c2.alpha = c1.alpha) :
    ∀ t, App2.minted_so_far c2 tvl t = App1.minted_so_far c1 tvl t := by
  intro t
  induction t with
  | zero => rfl
  | succ t ih =>
    rw [App2.minted_succ2, App1.minted_succ, ih,
      App2.cap_values_const c2 hen, hcap, hdm, halpha]

/-- With growth disabled in app2.py and matching parameters, the two
per-day emission sequences coincide. -/
theorem emissions_agree (c2 : Config2) (c1 : Config1) (tvl : ℕ → ℝ)
    (hen : c2.cap_growth_enabled = false)
    (hcap : c2.initial_cap = c1.cap)
    (hdm : c2.delta_max = c1.delta_max)
    (halpha : c2.alpha = c1.alpha) :
    ∀ t, App2.emissions c2 tvl t = App1.emissions c1 tvl t := by
  intro t
  rw [App2.emissions_def2, App1.emissions_def,
    minted_agree c2 c1 tvl hen hcap hdm halpha,
    App2.cap_values_const c2 hen, hcap, hdm, halpha]

/-- C1: for every configuration with a positive cap schedule (a positive
constant cap for app.py; for app2.py a positive initial cap and, whenever
growth is enabled, a positive growth rate with max_cap at least
initial_cap, which is what makes the code's schedule positive) and every
TVL trajectory, both emission simulators keep minted_cumulative[t] at or
below cap[t] for every day t in [0, days), and on the final day
minted_cumulative[days-1] + emission[days-1] is still at most cap[days-1]:
the clamp actual = min(provisional, cap[t] - minted_cumulative[t])
guarantees the cap is never exceeded even after the last emission. -/
theorem claim_C1_cap_never_exceeded
    (c1 : Config1) (c2 : Config2) (tvl1 tvl2 : ℕ → ℝ) (days : ℕ)
    (hcap : 0 < c1.cap) (_hdays : 0 < days)
    (hinit : 0 < c2.initial_cap)
    (hvalid : c2.cap_growth_enabled = true →
      0 < c2.cap_growth_rate ∧ c2.initial_cap ≤ c2.max_cap)
    (_hdays2 : 0 < c2.days) :
    (∀ t, t < days → App1.minted_so_far c1 tvl1 t ≤ c1.cap) ∧
    App1.minted_so_far c1 tvl1 (days - 1) +
      App1.emissions c1 tvl1 (days - 1) ≤ c1.cap ∧
    (∀ t, t < c2.days → App2.minted_so_far c2 tvl2 t ≤ App2.cap_values c2 t) ∧
    App2.minted_so_far c2 tvl2 (c2.days - 1) +
      App2.emissions c2 tvl2 (c2.days - 1) ≤ App2.cap_values c2 (c2.days - 1) :=
  ⟨fun t _ => App1.minted_le_cap c1 tvl1 hcap t,
   App1.minted_add_emission_le_cap c1 tvl1 (days - 1),
   fun t _ => App2.minted_le_cap2 c2 tvl2 hinit hvalid t,
   App2.minted_add_emission_le_cap2 c2 tvl2 (c2.days - 1)⟩

theorem claim_C1_cap_never_exceeded_witness :
    (0 : ℝ) < 1 ∧
    App1.minted_so_far ⟨1, 1, 1⟩ (fun _ => 0) 0 ≤ (1 : ℝ) ∧
    App1.minted_so_far ⟨1, 1, 1⟩ (fun _ => 0) 0 +
      App1.emissions ⟨1, 1, 1⟩ (fun _ => 0) 0 ≤ (1 : ℝ) ∧
    App2.minted_so_far ⟨1, false, 0, 1, 1, 1, 1⟩ (fun _ => 0) 0 ≤
      App2.cap_values ⟨1, false, 0, 1, 1, 1, 1⟩ 0 ∧
    App2.minted_so_far ⟨1, false, 0, 1, 1, 1, 1⟩ (fun _ => 0) 0 +
      App2.emissions ⟨1, false, 0, 1, 1, 1, 1⟩ (fun _ => 0) 0 ≤
      App2.cap_values ⟨1, false, 0, 1, 1, 1, 1⟩ 0 := by
  obtain ⟨h1, h2, h3, h4⟩ := claim_C1_cap_never_exceeded ⟨1, 1, 1⟩
    ⟨1, false, 0, 1, 1, 1, 1⟩ (fun _ => 0) (fun _ => 0) 1
    (by norm_num) (by norm_num) (by norm_num) (by simp) (by norm_num)
  exact ⟨by norm_num, h1 0 (by norm_num), h2, h3 0 (by norm_num), h4⟩

/-- C10: if alpha > 0, delta_max is nonnegative, the cap schedule is
positive (same configuration hypotheses as C1) and the trajectory is
nonnegative on every day, then neither simulator ever emits more than
delta_max in a single day: the damping factor lies in (0, 1] and the
remaining-cap factor lies in [0, 1] because the cumulative mint stays in
[0, cap[t]]. -/
theorem claim_C10_emission_le_delta_max
    (c1 : Config1) (c2 : Config2) (tvl1 tvl2 : ℕ → ℝ)
    (hcap : 0 < c1.cap) (hdm1 : 0 ≤ c1.delta_max) (halpha1 : 0 < c1.alpha)
    (htvl1 : ∀ t, 0 ≤ tvl1 t)
    (hinit : 0 < c2.initial_cap)
    (hvalid : c2.cap_growth_enabled = true →
      0 < c2.cap_growth_rate ∧ c2.initial_cap ≤ c2.max_cap)
    (hdm2 : 0 ≤ c2.delta_max) (halpha2 : 0 < c2.alpha)
    (htvl2 : ∀ t, 0 ≤ tvl2 t) :
    (∀ t, App1.emissions c1 tvl1 t ≤ c1.delta_max) ∧
    (∀ t, App2.emissions c2 tvl2 t ≤ c2.delta_max) :=
  ⟨fun t => App1.emissions_le_delta_max c1 tvl1 hcap hdm1 halpha1 htvl1 t,
   fun t => App2.emissions_le_delta_max2 c2 tvl2 hinit hvalid hdm2 halpha2 htvl2 t⟩

theorem claim_C10_emission_le_delta_max_witness :
    (0 : ℝ) < 1 ∧
    App1.emissions ⟨1, 1, 1⟩ (fun _ => 0) 0 ≤ (1 : ℝ) ∧
    App2.emissions ⟨1, false, 0, 1, 1, 1, 1⟩ (fun _ => 0) 0 ≤ (1 : ℝ) := by
  obtain ⟨h1, h2⟩ := claim_C10_emission_le_delta_max ⟨1, 1, 1⟩
    ⟨1, false, 0, 1, 1, 1, 1⟩ (fun _ => 0) (fun _ => 0)
    (by norm_num) (by norm_num) (by norm_num) (fun t => le_rfl)
    (by norm_num) (by simp) (by norm_num) (by norm_num) (fun t => le_rfl)
  exact ⟨by norm_num, h1 0, h2 0⟩

/-- C5: in growing-cap mode with a positive rate and max_cap at least
initial_cap, the schedule starts at exactly initial_cap, is non-decreasing
day over day, never dips below initial_cap, stays at or below max_cap on
every day of [0, days), and is strictly below max_cap there whenever
max_cap strictly exceeds initial_cap (the approach is from below). -/
theorem claim_C5_growing_cap_schedule (c : Config2)
    (hen : c.cap_growth_enabled = true)
    (hr : 0 < c.cap_growth_rate) (hm : c.initial_cap ≤ c.max_cap) :
    App2.cap_values c 0 = c.initial_cap ∧
    (∀ t : ℕ, App2.cap_values c t ≤ App2.cap_values c (t + 1)) ∧
    (∀ t : ℕ, c.initial_cap ≤ App2.cap_values c t) ∧
    (∀ t : ℕ, t < c.days → App2.cap_values c t ≤ c.max_cap) ∧
    (∀ t : ℕ, t < c.days → c.initial_cap < c.max_cap →
      App2.cap_values c t < c.max_cap) := by
  refine ⟨App2.cap_values_zero c, ?_, ?_, ?_, ?_⟩
  · exact App2.cap_values_mono c (fun _ => ⟨hr, hm⟩)
  · exact App2.initial_le_cap_values c (fun _ => ⟨hr, hm⟩)
  · exact fun t ht => (App2.cap_values_le_max c hen hr hm t ht).1
  · exact fun t ht hs => (App2.cap_values_le_max c hen hr hm t ht).2 hs

theorem claim_C5_growing_cap_schedule_witness :
    (0 : ℝ) < 1 / 10 ∧ (1000 : ℝ) ≤ 2000 ∧
    App2.cap_values ⟨1000, true, 1 / 10, 2000, 1, 1, 3650⟩ 0 = (1000 : ℝ) ∧
    App2.cap_values ⟨1000, true, 1 / 10, 2000, 1, 1, 3650⟩ 0 ≤
      App2.cap_values ⟨1000, true, 1 / 10, 2000, 1, 1, 3650⟩ 1 ∧
    (1000 : ℝ) ≤ App2.cap_values ⟨1000, true, 1 / 10, 2000, 1, 1, 3650⟩ 3649 ∧
    App2.cap_values ⟨1000, true, 1 / 10, 2000, 1, 1, 3650⟩ 3649 ≤ (2000 : ℝ) ∧
    App2.cap_values ⟨1000, true, 1 / 10, 2000, 1, 1, 3650⟩ 3649 < (2000 : ℝ) := by
  obtain ⟨h1, h2, h3, h4, h5⟩ := claim_C5_growing_cap_schedule
    ⟨1000, true, 1 / 10, 2000, 1, 1, 3650⟩ rfl (by norm_num) (by norm_num)
  exact ⟨by norm_num, by norm_num, h1, h2 0, h3 3649,
    h4 3649 (by norm_num), h5 3649 (by norm_num) (by norm_num)⟩

/-- C8: both simulators are deterministic functions of the Configuration
and the Trajectory: two runs on identical inputs return identical output
tuples (tvl, emission, minted_cumulative, and for app2.py also cap); the
embedded computation has no hidden randomness or retained state. -/
theorem claim_C8_deterministic (c1 c1' : Config1) (c2 c2' : Config2)
    (tvl tvl' u u' : ℕ → ℝ)
    (h1 : c1 = c1') (h2 : tvl = tvl') (h3 : c2 = c2') (h4 : u = u') :
    App1.calculate_emissions c1 tvl = App1.calculate_emissions c1' tvl' ∧
    App2.calculate_emissions c2 u = App2.calculate_emissions c2' u' := by
  subst h1; subst h2; subst h3; subst h4
  exact ⟨rfl, rfl⟩

theorem claim_C8_deterministic_witness :
    App1.calculate_emissions ⟨1, 1, 1⟩ (fun _ => 0) =
      App1.calculate_emissions ⟨1, 1, 1⟩ (fun _ => 0) ∧
    App2.calculate_emissions ⟨1, false, 0, 1, 1, 1, 1⟩ (fun _ => 0) =
      App2.calculate_emissions ⟨1, false, 0, 1, 1, 1, 1⟩ (fun _ => 0) :=
  claim_C8_deterministic ⟨1, 1, 1⟩ ⟨1, 1, 1⟩ ⟨1, false, 0, 1, 1, 1, 1⟩
    ⟨1, false, 0, 1, 1, 1, 1⟩ (fun _ => 0) (fun _ => 0) (fun _ => 0) (fun _ => 0)
    rfl rfl rfl rfl

/-- C9: with cap growth disabled and app2.py's initial_cap, delta_max and
alpha matching app.py's cap, delta_max and alpha, the extended simulator
returns exactly the same tvl, emission and minted_cumulative sequences as
the basic one, plus a cap sequence that is constantly initial_cap. -/
theorem claim_C9_app2_refines_app1 (c2 : Config2) (c1 : Config1) (tvl : ℕ → ℝ)
    (hen : c2.cap_growth_enabled = false)
    (hcap : c2.initial_cap = c1.cap)
    (hdm : c2.delta_max = c1.delta_max)
    (halpha : c2.alpha = c1.alpha) :
    (App2.calculate_emissions c2 tvl).1 = (App1.calculate_emissions c1 tvl).1 ∧
    (App2.calculate_emissions c2 tvl).2.1 = (App1.calculate_emissions c1 tvl).2.1 ∧
    (App2.calculate_emissions c2 tvl).2.2.1 = (App1.calculate_emissions c1 tvl).2.2 ∧
    (∀ t, (App2.calculate_emissions c2 tvl).2.2.2 t = c2.initial_cap) := by
  refine ⟨rfl, ?_, ?_, ?_⟩
  · exact funext (emissions_agree c2 c1 tvl hen hcap hdm halpha)
  · exact funext (minted_agree c2 c1 tvl hen hcap hdm halpha)
  · exact fun t => App2.cap_values_const c2 hen t

theorem claim_C9_app2_refines_app1_witness :
    (App2.calculate_emissions ⟨5, false, 0, 5, 2, 3, 10⟩ (fun _ => 1)).1 =
      (App1.calculate_emissions ⟨5, 2, 3⟩ (fun _ => 1)).1 ∧
    (App2.calculate_emissions ⟨5, false, 0, 5, 2, 3, 10⟩ (fun _ => 1)).2.1 =
      (App1.calculate_emissions ⟨5, 2, 3⟩ (fun _ => 1)).2.1 ∧
    (App2.calculate_emissions ⟨5, false, 0, 5, 2, 3, 10⟩ (fun _ => 1)).2.2.1 =
      (App1.calculate_emissions ⟨5, 2, 3⟩ (fun _ => 1)).2.2 ∧
    (App2.calculate_emissions ⟨5, false, 0, 5, 2, 3, 10⟩ (fun _ => 1)).2.2.2 0 =
      (5 : ℝ) := by
  obtain ⟨h1, h2, h3, h4⟩ := claim_C9_app2_refines_app1
    ⟨5, false, 0, 5, 2, 3, 10⟩ ⟨5, 2, 3⟩ (fun _ => 1) rfl rfl rfl rfl
  exact ⟨h1, h2, h3, h4 0⟩

/-- C2 is refuted by the code: neither loop floors the emission at 0, the
clamp is only min(e_t, cap - minted). With cap 10, delta_max 1, alpha 1
and the constant trajectory -2 (a negative TVL of the kind the sinusoidal
generator can produce) the damping factor is 1/(1 + 1*(-2)) = -1, so both
simulators report emission -1 on day 0 instead of the claimed
nonnegative value. -/
theorem claim_C2_negative_emission_bug :
    App1.emissions ⟨10, 1, 1⟩ (fun _ => -2) 0 = -1 ∧
    App2.emissions ⟨10, false, 0, 10, 1, 1, 1⟩ (fun _ => -2) 0 = -1 ∧
    App1.emissions ⟨10, 1, 1⟩ (fun _ => -2) 0 < 0 := by
  refine ⟨?_, ?_, ?_⟩
  · rw [App1.emissions_def]
    simp only [App1.minted_so_far]
    norm_num
  · rw [App2.emissions_def2]
    simp only [App2.minted_so_far]
    rw [App2.cap_values_const _ rfl]
    norm_num
  · rw [App1.emissions_def]
    simp only [App1.minted_so_far]
    norm_num

/-- C3 is refuted by the code: calculate_hard_cap in app2.py has no
special case for cap_growth_rate = 0. With growth enabled and rate 0 the
normalisation denominator is log(1 + 0*days) = 0 and the numerator is
log(1 + 0*t) = 0, so NumPy evaluates 0/0 = NaN on every day; the
IEEE-faithful embedding returns none (NaN), not the claimed initial_cap. -/
theorem claim_C3_rate_zero_nan_bug :
    App2.calculate_hard_cap_ieee ⟨1000, true, 0, 2000, 1, 1, 3650⟩ 0 = none ∧
    App2.calculate_hard_cap_ieee ⟨1000, true, 0, 2000, 1, 1, 3650⟩ 0 ≠
      some 1000 := by
  have h : App2.calculate_hard_cap_ieee ⟨1000, true, 0, 2000, 1, 1, 3650⟩ 0 = none := by
    unfold App2.calculate_hard_cap_ieee
    rw [if_neg (by simp), if_pos (by norm_num [Real.log_one])]
  exact ⟨h, by rw [h]; exact fun hc => Option.noConfusion hc⟩

/-- C4 is refuted by the code: because the emission is not floored at 0,
the cumulative mint can strictly decrease. With cap 10, delta_max 1,
alpha 1 and the constant trajectory -2 the app.py loop moves
minted_cumulative from 0 on day 0 down to -1 on day 1. -/
theorem claim_C4_minted_decreases_bug :
    App1.minted_so_far ⟨10, 1, 1⟩ (fun _ => -2) 1 = -1 ∧
    App1.minted_so_far ⟨10, 1, 1⟩ (fun _ => -2) 1 <
      App1.minted_so_far ⟨10, 1, 1⟩ (fun _ => -2) 0 := by
  constructor
  · simp only [App1.minted_so_far]
    norm_num
  · show App1.minted_so_far ⟨10, 1, 1⟩ (fun _ => -2) 1 < 0
    simp only [App1.minted_so_far]
    norm_num

/-- C6 is refuted by the code: there is no Configuration object and no
validation anywhere in either script; parameter bounds exist only in the
Streamlit input widgets. The embedded cores are total functions that
happily simulate invalid configurations: app.py with the invalid cap -1
(cap <= 0) returns emission -1 on day 0, and app2.py with the invalid
alpha -2 (alpha <= 0) likewise returns emission -1, instead of rejecting
the configuration before any simulation step. -/
theorem claim_C6_no_validation_bug :
    App1.emissions ⟨-1, 1, 1⟩ (fun _ => 1) 0 = -1 ∧
    App2.emissions ⟨10, false, 0, 10, 1, -2, 1⟩ (fun _ => 1) 0 = -1 := by
  constructor
  · rw [App1.emissions_def]
    simp only [App1.minted_so_far]
    norm_num
  · rw [App2.emissions_def2]
    simp only [App2.minted_so_far]
    rw [App2.cap_values_const _ rfl]
    norm_num

/-- C7: concrete scenario A. With cap 2.5e9, delta_max 100e6, alpha 1e-5
and the linear trajectory at start 50e6 and growth rate 0.01, day 0 of the
app.py simulator sees tvl 50e6, remaining fraction 1 and damping 1/501,
emits exactly 100e6/501 (about 199601, well below the cap headroom
2.5e9), and carries 100e6/501 into minted_cumulative[1]. -/
theorem claim_C7_scenario_a :
    increasing_tvl 50e6 0.01 ((0 : ℕ) : ℝ) = 50e6 ∧
    1 - App1.minted_so_far ⟨2.5e9, 100e6, 1e-5⟩
        (fun t => increasing_tvl 50e6 0.01 (t : ℝ)) 0 / (2.5e9 : ℝ) = 1 ∧
    1 / (1 + (1e-5 : ℝ) * increasing_tvl 50e6 0.01 ((0 : ℕ) : ℝ)) = 1 / 501 ∧
    App1.emissions ⟨2.5e9, 100e6, 1e-5⟩
        (fun t => increasing_tvl 50e6 0.01 (t : ℝ)) 0 = 100e6 / 501 ∧
    (100e6 : ℝ) / 501 < 2.5e9 ∧
    App1.minted_so_far ⟨2.5e9, 100e6, 1e-5⟩
        (fun t => increasing_tvl 50e6 0.01 (t : ℝ)) 1 = 100e6 / 501 := by
  refine ⟨?_, ?_, ?_, ?_, ?_, ?_⟩
  · simp only [increasing_tvl]
    norm_num
  · simp only [App1.minted_so_far]
    norm_num
  · simp only [increasing_tvl]
    norm_num
  · rw [App1.emissions_def]
    simp only [App1.minted_so_far, increasing_tvl]
    norm_num
  · norm_num
  · simp only [App1.minted_so_far, increasing_tvl]
    norm_num

end CsMinting
